import Mathlib

/-!
Shallow embedding of the `sails` core (`sails.core.crypto`, `sails.core.retry`,
`sails.core.file`) and proofs about the claims of its specification.

Bytes are modelled as natural numbers below 256 (`List ℕ`); Python floats as
exact rationals (`ℚ`); fallible Python code as `Except PyErr`.  Each definition
mirrors the corresponding Python function of the repository; standard-library
behaviour (struct packing, base64, hmac argument handling, the `type.__call__`
protocol) is modelled from its documented semantics.
-/

/-- The Python exceptions that the embedded code can raise.  `signatureError`
carries the message string, because `sails.core.crypto.SignatureError` is one
class whose three raise sites differ only in their message. -/
inductive PyErr where
  | typeError
  | valueError
  | recursionError
  | attributeError
  | structError
  | binasciiError
  | fileNotFoundError
  | signatureError (message : String)
deriving DecidableEq, Repr

/-- Decidable equality for `Except` results, used by `decide` on closed
evaluations of the embedded functions. -/
instance {ε α : Type} [DecidableEq ε] [DecidableEq α] : DecidableEq (Except ε α)
  | .error a, .error b => decidable_of_iff (a = b) ⟨congrArg Except.error, Except.error.inj⟩
  | .ok a, .ok b => decidable_of_iff (a = b) ⟨congrArg Except.ok, Except.ok.inj⟩
  | .error _, .ok _ => isFalse fun h => Except.noConfusion h
  | .ok _, .error _ => isFalse fun h => Except.noConfusion h

/-- `int(x)` on a Python float: truncation toward zero.  `Int.div` is
T-division, so `num / den` truncates the rational toward zero. -/
def pyInt (q : ℚ) : ℤ := Int.tdiv q.num q.den

/-- One Unicode code point encoded to UTF-8 bytes. -/
def utf8EncodeChar (c : ℕ) : List ℕ :=
  if c < 128 then [c]
  else if c < 2048 then [192 + c / 64, 128 + c % 64]
  else if c < 65536 then [224 + c / 4096, 128 + c / 64 % 64, 128 + c % 64]
  else [240 + c / 262144, 128 + c / 4096 % 64, 128 + c / 64 % 64, 128 + c % 64]

/-- `message.encode("utf8")`: the UTF-8 bytes of a Python string. -/
def utf8Encode (s : String) : List ℕ :=
  (s.data.map (fun ch => utf8EncodeChar ch.toNat)).flatten

/-- The byte value of the base64url character for a 6-bit group
(RFC 4648 alphabet with `-` and `_`). -/
def sextetChar (v : ℕ) : ℕ :=
  if v < 26 then v + 65
  else if v < 52 then v + 71
  else if v < 62 then v - 4
  else if v = 62 then 45
  else 95

/-- `base64.urlsafe_b64encode`: bytes to base64url text (as byte values),
standard `=` padding retained. -/
def urlsafe_b64encode : List ℕ → List ℕ
  | [] => []
  | [b1] =>
      [sextetChar (b1 / 4), sextetChar (b1 % 4 * 16), 61, 61]
  | [b1, b2] =>
      [sextetChar (b1 / 4), sextetChar (b1 % 4 * 16 + b2 / 16),
       sextetChar (b2 % 16 * 4), 61]
  | b1 :: b2 :: b3 :: rest =>
      sextetChar (b1 / 4) :: sextetChar (b1 % 4 * 16 + b2 / 16) ::
      sextetChar (b2 % 16 * 4 + b3 / 64) :: sextetChar (b3 % 64) ::
      urlsafe_b64encode rest

/-- The 6-bit value of a base64url alphabet byte, or `none` for a byte outside
the alphabet. -/
def sextetVal (c : ℕ) : Option ℕ :=
  if 65 ≤ c ∧ c ≤ 90 then some (c - 65)
  else if 97 ≤ c ∧ c ≤ 122 then some (c - 71)
  else if 48 ≤ c ∧ c ≤ 57 then some (c + 4)
  else if c = 45 then some 62
  else if c = 95 then some 63
  else none

/-- `base64.urlsafe_b64decode` on well-formed input: groups of four base64url
characters, with `=` padding only at the very end; anything else raises
`binascii.Error`.  (CPython is laxer — it silently discards bytes outside the
alphabet before checking the length — but no property proved here feeds it such
input.) -/
def urlsafe_b64decode : List ℕ → Except PyErr (List ℕ)
  | [] => .ok []
  | c1 :: c2 :: c3 :: c4 :: rest =>
    match sextetVal c1, sextetVal c2 with
    | some v1, some v2 =>
      if c3 = 61 ∧ c4 = 61 ∧ rest = [] then
        .ok [v1 * 4 + v2 / 16]
      else
        match sextetVal c3 with
        | some v3 =>
          if c4 = 61 ∧ rest = [] then
            .ok [v1 * 4 + v2 / 16, v2 % 16 * 16 + v3 / 4]
          else
            match sextetVal c4 with
            | some v4 =>
              match urlsafe_b64decode rest with
              | .ok bs =>
                  .ok ((v1 * 4 + v2 / 16) :: (v2 % 16 * 16 + v3 / 4) ::
                       (v3 % 4 * 64 + v4) :: bs)
              | .error e => .error e
            | none => .error .binasciiError
        | none => .error .binasciiError
    | _, _ => .error .binasciiError
  | _ => .error .binasciiError

/-! ## `sails.core.crypto` -/

/-- `struct.Struct("<BxxI").size`: 1 version byte, 2 pad bytes, 4 expiry bytes. -/
def BYTE_FORMAT_size : ℕ := 7

/-- The current version number of the signature header (`crypto.VERSION`). -/
def VERSION : ℕ := 1

/-- `Secret`: raw key bytes. -/
structure Secret where
  data : List ℕ
deriving DecidableEq, Repr

/-- `SignatureHeader`: the parsed header returned by `Signature.verify`. -/
structure SignatureHeader where
  version : ℕ
  expiry : ℕ
deriving DecidableEq, Repr

/-- `BYTE_FORMAT.pack(version, expiry)`: little-endian `u8`/`u32` packing with
two pad bytes.  CPython's `struct` range-checks standard-size formats, so a
version outside `[0, 2^8)` or an expiry outside `[0, 2^32)` raises
`struct.error` instead of wrapping. -/
def BYTE_FORMAT_pack (version : ℕ) (expiry : ℤ) : Except PyErr (List ℕ) :=
  if version < 256 ∧ 0 ≤ expiry ∧ expiry < 4294967296 then
    .ok [version, 0, 0,
         expiry.toNat % 256, expiry.toNat / 256 % 256,
         expiry.toNat / 65536 % 256, expiry.toNat / 16777216 % 256]
  else .error .structError

/-- `BYTE_FORMAT.unpack(header)`: requires exactly 7 bytes (`struct.error`
otherwise) and reads the version byte and the little-endian `u32` expiry. -/
def BYTE_FORMAT_unpack (bs : List ℕ) : Except PyErr (ℕ × ℕ) :=
  match bs with
  | [v, _, _, e0, e1, e2, e3] => .ok (v, e0 + 256 * e1 + 65536 * e2 + 16777216 * e3)
  | _ => .error .structError

/-- Deterministic model of `hmac.new(key, payload, hashlib.sha384).digest()`:
a keyed function of `(key, payload)` producing 48 bytes.  The properties
settled in this file depend only on the digest being deterministic and
48 bytes long, never on the internals of SHA-384, so the compression core is
modelled by a simple keyed mixing fold. -/
def hmac_sha384 (key payload : List ℕ) : List ℕ :=
  (List.range 48).map fun i =>
    (key ++ payload).foldl (fun a b => (a * 131 + b + 1) % 251) (i % 251)

/-- `hmac.new(key, payload, hashlib.sha384())` — note the call parentheses: the
third argument is a SHA-384 *hash object*, not the `hashlib.sha384`
constructor.  CPython's `hmac` accepts a callable, a digest name string, or a
module-like object with a `new` attribute; a `_hashlib.HASH` instance is none
of these, so the fallback `digestmod.new(...)` raises `AttributeError` before
any digest is computed. -/
def hmac_new_with_hash_object (key payload : List ℕ) : Except PyErr (List ℕ) :=
  match key, payload with
  | _, _ => .error .attributeError

/-- The body of `Signature.sign` after the expiry computation: packs the
header, digests `header + message.encode("utf8")` with HMAC-SHA384, and
returns `base64.urlsafe_b64encode(header + digest)`. -/
def Signature_sign_packed (secret : Secret) (message : String) (expiry : ℤ) :
    Except PyErr (List ℕ) :=
  match BYTE_FORMAT_pack VERSION expiry with
  | .error e => .error e
  | .ok header =>
    let payload := header ++ utf8Encode message
    let digest := hmac_sha384 secret.data payload
    .ok (urlsafe_b64encode (header ++ digest))

/-- `Signature.sign(secret, message, max_age)` at signing time `now`
(`time.time()`): computes `expiry = int(now + max_age.total_seconds())` and
runs the packing/digest/encoding body on it. -/
def Signature_sign (secret : Secret) (message : String) (max_age now : ℚ) :
    Except PyErr (List ℕ) :=
  Signature_sign_packed secret message (pyInt (now + max_age))

/-- The `try` block of `Signature.verify`: decode, slice header and digest,
unpack, check the version and the digest length.  Every error it can produce
(`binascii.Error`, `struct.error`, `ValueError`) is in the `except` tuple of
the source, which replaces it by the corrupt-signature `SignatureError`. -/
def verify_structural (signature : List ℕ) :
    Except PyErr (List ℕ × List ℕ × ℕ × ℕ) :=
  match urlsafe_b64decode signature with
  | .error e => .error e
  | .ok decoded =>
    let header := decoded.take BYTE_FORMAT_size
    let digest := decoded.drop BYTE_FORMAT_size
    match BYTE_FORMAT_unpack header with
    | .error e => .error e
    | .ok (version, expiry) =>
      if version ≠ VERSION then .error .valueError
      else if digest.length ≠ 48 then .error .valueError
      else .ok (header, digest, version, expiry)

/-- `Signature.verify(secret, message, signature)` at verification time `now`:
structural checks first (failures become the corrupt `SignatureError`), then
the strict `time.time() > expiry` expiry check, then the digest recomputation
`hmac.new(secret.data, payload, hashlib.sha384())` — which, per
`hmac_new_with_hash_object`, raises `AttributeError` (uncaught: line 130 of
the source sits outside the `try` block and `AttributeError` is not in the
`except` tuple anyway), so the comparison and success paths are dead code. -/
def Signature_verify (secret : Secret) (message : String) (signature : List ℕ)
    (now : ℚ) : Except PyErr SignatureHeader :=
  match verify_structural signature with
  | .error _ => .error (.signatureError "The signature was corrupt and cannot be read.")
  | .ok (header, digest, version, expiry) =>
    if now > (expiry : ℚ) then
      .error (.signatureError "The signature has expired and is no longer valid.")
    else
      match hmac_new_with_hash_object secret.data (header ++ utf8Encode message) with
      | .error e => .error e
      | .ok compared_digest =>
        if compared_digest = digest then .ok ⟨version, expiry⟩
        else .error (.signatureError "The signature digest is not the same, the signature is not valid.")

/-- `Fernet(key)`: the key must be 32 url-safe base64-encoded bytes; any other
key raises during construction (the library raises `ValueError`, wrapping
decode failures). -/
def Fernet_init (key : List ℕ) : Except PyErr (List ℕ) :=
  match urlsafe_b64decode key with
  | .error _ => .error .valueError
  | .ok ks => if ks.length = 32 then .ok ks else .error .valueError

/-- The expression `message ^ secret` of `Encrypt.write`: `str` defines no
`__xor__` and the `Secret` dataclass defines no `__rxor__`, so evaluating it
raises `TypeError` and produces no value (hence the `Empty` payload). -/
def pyXor_str_secret (message : String) (secret : Secret) : Except PyErr Empty :=
  match message, secret with
  | _, _ => .error .typeError

/-- The expression `decoded_message ^ secret.data` of `Encrypt.read`: `bytes`
defines no `__xor__` for a `bytes` operand either, so this too raises
`TypeError`. -/
def pyXor_bytes_bytes (a b : List ℕ) : Except PyErr Empty :=
  match a, b with
  | _, _ => .error .typeError

/-- `Encrypt.write(message, secret)`: constructs the `Fernet`, then evaluates
`message ^ secret`, which raises; the call `fernet.encrypt(...)` on the last
line is unreachable. -/
def Encrypt_write (message : String) (secret : Secret) : Except PyErr (List ℕ) :=
  match Fernet_init secret.data with
  | .error e => .error e
  | .ok _fernet =>
    match pyXor_str_secret message secret with
    | .error e => .error e
    | .ok x => x.elim

/-- Modelled from the spec: `Fernet.decrypt` (authenticated decryption, §4.3 —
the `cryptography` library is outside `src/`).  Its output is never observable
in this development because the xor that follows in `Encrypt.read` always
raises `TypeError`, so the model simply passes the token through. -/
def Fernet_decrypt (_key raw : List ℕ) : Except PyErr (List ℕ) := .ok raw

/-- `Encrypt.read(raw, secret)`: constructs the `Fernet`, decrypts, then
evaluates `decoded_message ^ secret.data`, which raises `TypeError`. -/
def Encrypt_read (raw : List ℕ) (secret : Secret) : Except PyErr (List ℕ) :=
  match Fernet_init secret.data with
  | .error e => .error e
  | .ok _fernet =>
    match Fernet_decrypt secret.data raw with
    | .error e => .error e
    | .ok decoded =>
      match pyXor_bytes_bytes decoded secret.data with
      | .error e => .error e
      | .ok x => x.elim

/-! ## `sails.core.retry`

`Retry.__new__` is declared `@staticmethod def __new__(attempts=0, time=0.0,
backoff=0.0)` — it has no `cls` parameter.  `type.__call__` invokes
`cls.__new__(cls, *args, **kwargs)`, so on every instantiation of `Retry` or
of any of its subclasses (all of which inherit this `__new__`) the class
object itself binds to `attempts`.  In particular the first statement of the
body, `retry = InfiniteRetry()`, re-enters the same `__new__`, so every
construction recurses without bound; the recursion depth is modelled by an
explicit fuel argument, with fuel exhaustion standing for Python's
`RecursionError` at `sys.getrecursionlimit()`. -/

/-- The classes of the retry module. -/
inductive RetryCls where
  | retry | infiniteRetry | attemptRetry | timedRetry | backoffRetry
deriving DecidableEq, Repr

/-- The Python values that can flow into the parameters of `Retry.__new__`:
a class object, an `int`, a `float`, `None`, or a constructed instance (tagged
with its class; field assignment happens in the `__init__` step, which is
unreachable here because `__new__` never returns). -/
inductive PyVal where
  | pyClass (c : RetryCls)
  | pyInteger (n : ℤ)
  | pyFloat (q : ℚ)
  | pyNone
  | pyObj (c : RetryCls)
deriving DecidableEq, Repr

/-- Python truthiness of the values above: class objects and instances are
truthy, numbers are truthy iff nonzero, `None` is falsy. -/
def truthy : PyVal → Bool
  | .pyClass _ => true
  | .pyInteger n => n ≠ 0
  | .pyFloat q => q ≠ 0
  | .pyNone => false
  | .pyObj _ => true

/-- Binding of a call's arguments to the parameter list
`(attempts=0, time=0.0, backoff=0.0)` of the shared `__new__`.  `allPos` is
the full positional tuple — the class object prepended by `type.__call__`,
then the call's own positional arguments.  A parameter receiving both a
positional and a keyword value, or more than three positional values, raises
`TypeError`. -/
def bindParams : List PyVal → Option PyVal → Option PyVal → Option PyVal →
    Except PyErr (PyVal × PyVal × PyVal)
  | [], kwA, kwT, kwB =>
      .ok (kwA.getD (.pyInteger 0), kwT.getD (.pyFloat 0), kwB.getD (.pyFloat 0))
  | [a], none, kwT, kwB => .ok (a, kwT.getD (.pyFloat 0), kwB.getD (.pyFloat 0))
  | [_], some _, _, _ => .error .typeError
  | [a, t], none, none, kwB => .ok (a, t, kwB.getD (.pyFloat 0))
  | [_, _], some _, _, _ => .error .typeError
  | [_, _], _, some _, _ => .error .typeError
  | [a, t, b], none, none, none => .ok (a, t, b)
  | [_, _, _], _, _, _ => .error .typeError
  | _, _, _, _ => .error .typeError

/-- The call `C(*pos, attempts=…, time=…, backoff=…)` for any class `C` of the
retry module: `type.__call__` invokes the inherited `Retry.__new__` with `C`
prepended to the positional arguments, and the body of `__new__` runs.
`type.__call__` would afterwards run the `__init__` of the returned instance's
class on the same arguments (for `TimedRetry` that is where the guard
`if time >= 0: raise ValueError(...)` lives — inverted with respect to its own
docstring, which says it raises when `time` is negative or zero); that step is
not wired in because, as proved below, the body never returns: its first
statement `retry = InfiniteRetry()` re-enters `__new__` unconditionally. -/
def callRetryCls : ℕ → RetryCls → List PyVal → Option PyVal → Option PyVal →
    Option PyVal → Except PyErr PyVal
  | 0, _, _, _, _, _ => .error .recursionError
  | fuel + 1, c, pos, kwA, kwT, kwB =>
    match bindParams (PyVal.pyClass c :: pos) kwA kwT kwB with
    | .error e => .error e
    | .ok (attempts, timeArg, backoffArg) =>
      -- retry: Retry = InfiniteRetry()
      match callRetryCls fuel .infiniteRetry [] none none none with
      | .error e => .error e
      | .ok retry0 =>
        -- if attempts: retry = AttemptRetry(retry, attempts)
        match (if truthy attempts then
                 callRetryCls fuel .attemptRetry [retry0, attempts] none none none
               else .ok retry0) with
        | .error e => .error e
        | .ok retry1 =>
          -- if time: retry = TimedRetry(retry, time)
          match (if truthy timeArg then
                   callRetryCls fuel .timedRetry [retry1, timeArg] none none none
                 else .ok retry1) with
          | .error e => .error e
          | .ok retry2 =>
            -- if backoff: retry = BackoffRetry(retry, backoff)
            match (if truthy backoffArg then
                     callRetryCls fuel .backoffRetry [retry2, backoffArg] none none none
                   else .ok retry2) with
            | .error e => .error e
            | .ok retry3 => .ok retry3

/-- `TimedRetry.__init__`'s guard, recorded separately: `if time >= 0: raise
ValueError("Time cannot be negative or 0.")`.  The condition is inverted with
respect to the docstring (":raises ValueError: If `time` is negative or 0."),
so every nonnegative budget — in particular every positive one — is rejected.
It is unreachable through `callRetryCls`, since no construction survives the
shared `__new__`. -/
def TimedRetry_init_check (time : ℚ) : Except PyErr Unit :=
  if time ≥ 0 then .error .valueError else .ok ()

/-! ## `sails.core.file` -/

/-- `EncryptedFileWriter` state: target path, secret, and the in-memory buffer
of encrypted lines. -/
structure EncryptedFileWriter where
  path : String
  secret : Secret
  buffer : List (List ℕ)
deriving DecidableEq, Repr

/-- `EncryptedFileWriter.__init__(path, secret)`: empty buffer. -/
def EncryptedFileWriter_init (path : String) (secret : Secret) :
    EncryptedFileWriter :=
  ⟨path, secret, []⟩

/-- `EncryptedFileWriter.write(message)`: encrypts `message + "\n"` with
`Encrypt.write` and appends it to the buffer.  `Encrypt.write` always raises
(`ValueError` from `Fernet(...)` for a malformed key, otherwise `TypeError`
from `message ^ secret`), so the buffer is never extended. -/
def EncryptedFileWriter_write (w : EncryptedFileWriter) (message : String) :
    Except PyErr EncryptedFileWriter :=
  match Encrypt_write (message ++ "\n") w.secret with
  | .error e => .error e
  | .ok encrypted_message => .ok { w with buffer := w.buffer ++ [encrypted_message] }

/-- A well-formed Fernet key for concrete evaluations: 43 bytes `A` plus `=`,
the base64url encoding of 32 zero bytes. -/
def fernetKey : List ℕ := List.replicate 43 65 ++ [61]

/-- `ObservedFile` cache state: the cached modification time (0.0 before any
parse) and the cached parsed value (`None` before the first successful
parse).  The value type `V` is the parser's result type. -/
structure ObservedFileState (V : Type) where
  modified_time : ℚ
  data : Option V
deriving DecidableEq, Repr

/-- The Python test `not self.data` on the cache field: true when the field is
still `None` or holds a falsy parsed value (`truthy` is the `bool()` protocol
of `V`). -/
def dataFalsy {V : Type} (truthyV : V → Bool) : Option V → Bool
  | none => true
  | some v => ! truthyV v

/-- `ObservedFile.get_data_and_modified_time`, with the environment made
explicit: `statResult` is the outcome of `os.path.getmtime(self.path)` (`none`
when it raises `OSError`), and `parseResult` the outcome of
`self.parser(file)` on the re-opened file (`none` when opening or parsing
raises).  Returns the (data, modified-time) pair — `data` can still be `None`,
Python's `cast` is a no-op — together with the state after the call.  Note the
source places `self.modified_time = modified_time` *after* the
`try/except`, so it also runs when parsing failed and the failure was
swallowed because a truthy cached value exists. -/
def get_data_and_modified_time {V : Type} (truthyV : V → Bool)
    (st : ObservedFileState V) (statResult : Option ℚ) (parseResult : Option V) :
    Except PyErr (Option V × ℚ × ObservedFileState V) :=
  match statResult with
  | none =>
      -- except OSError: raise FileNotFoundError if no (truthy) cache, else
      -- serve the cache
      if dataFalsy truthyV st.data then .error .fileNotFoundError
      else .ok (st.data, st.modified_time, st)
  | some modified_time =>
      if st.modified_time < modified_time then
        match parseResult with
        | some v =>
            let st' : ObservedFileState V := ⟨modified_time, some v⟩
            .ok (st'.data, st'.modified_time, st')
        | none =>
            -- except Exception: raise FileNotFoundError if no (truthy) cache;
            -- otherwise fall through — and the assignment
            -- self.modified_time = modified_time still executes
            if dataFalsy truthyV st.data then .error .fileNotFoundError
            else
              let st' : ObservedFileState V := ⟨modified_time, st.data⟩
              .ok (st'.data, st'.modified_time, st')
      else .ok (st.data, st.modified_time, st)

/-! ## Theorems -/

/-- Helper: any call of a retry class with keyword arguments only (no keyword
for `attempts`) exhausts every recursion budget at `retry = InfiniteRetry()`
and raises `RecursionError`. -/
theorem callRetryCls_kwOnly_recursionError (fuel : ℕ) (c : RetryCls)
    (kwT kwB : Option PyVal) :
    callRetryCls fuel c [] none kwT kwB = .error .recursionError := by
  induction fuel generalizing c kwT kwB with
  | zero => rfl
  | succ n ih =>
    simp only [callRetryCls, bindParams]
    rw [ih .infiniteRetry none none]

/-- C1: the token round-trip fails on the code.  At the concrete input
(secret `b"k"`, message `"msg"`, `max_age` 60 s, signing and verification both
at time 1000) `Signature.sign` succeeds, but `Signature.verify` on its output
raises `AttributeError` at the digest recomputation (line 131 passes the hash
object `hashlib.sha384()` as digestmod instead of the constructor
`hashlib.sha384` used on the signing side), instead of returning the header as
the claim states. -/
theorem sign_then_verify_raises_attributeError :
    (Signature_sign ⟨[107]⟩ "msg" 60 1000).isOk = true ∧
    (Signature_sign ⟨[107]⟩ "msg" 60 1000).bind
        (fun tok => Signature_verify ⟨[107]⟩ "msg" tok 1000)
      = .error .attributeError := by
  have h : pyInt ((1000 : ℚ) + 60) = 1060 := by norm_num [pyInt]
  simp only [Signature_sign, h]
  exact ⟨by decide, by decide⟩

/-- C2: the cipher round-trip fails on the code.  `Encrypt.write` raises on
every input — `ValueError` from `Fernet(secret.data)` when the key is not a
well-formed Fernet key, otherwise `TypeError` from the expression
`message ^ secret` — so `Encrypt.read(Encrypt.write(m, k), k)` never gets a
ciphertext to decrypt.  The second conjunct evaluates the failing input
`m = "a"` with a well-formed key. -/
theorem encrypt_write_always_raises :
    (∀ (m : String) (k : Secret), ∃ e, Encrypt_write m k = .error e) ∧
      Encrypt_write "a" ⟨fernetKey⟩ = .error .typeError := by
  constructor
  · intro m k
    unfold Encrypt_write
    cases h : Fernet_init k.data with
    | error e => exact ⟨e, rfl⟩
    | ok ks => exact ⟨.typeError, rfl⟩
  · decide

/-- C3: the encrypted line-store round-trip fails on the code.  The very first
step of the scenario — `write("a")` on a fresh `EncryptedFileWriter` with a
well-formed Fernet key — raises `TypeError` inside `Encrypt.write`
(`message ^ secret`), so no line is ever buffered, committed, or read back. -/
theorem encrypted_writer_write_raises :
    EncryptedFileWriter_write (EncryptedFileWriter_init "lines.store" ⟨fernetKey⟩) "a"
      = .error .typeError := by
  decide

/-- C4: a policy cannot be constructed with `max_attempts = 3` at all, with or
without time/backoff keywords.  `Retry.__new__` lacks a `cls` parameter, so
`type.__call__` binds the class object to `attempts` positionally and the
keyword `attempts=3` is a second value for the same parameter: the call raises
`TypeError` before the body runs, for every recursion budget and any
`time`/`backoff` keywords. -/
theorem retry_attempts_keyword_raises_typeError (fuel : ℕ) (kwT kwB : Option PyVal) :
    callRetryCls (fuel + 1) .retry [] (some (.pyInteger 3)) kwT kwB
      = .error .typeError :=
  rfl

/-- C5: a time-bounded policy cannot be constructed for any positive budget
`T`.  `Retry(time=T)` enters the inherited `__new__`, whose first statement
`retry = InfiniteRetry()` re-enters the same `__new__` unboundedly, so the
call raises `RecursionError` for every recursion budget — it never yields `T`
or anything else.  (Even with that fixed, `TimedRetry.__init__`'s inverted
guard `if time >= 0: raise ValueError(...)`, `TimedRetry_init_check`, rejects
every positive `T`.) -/
theorem retry_time_budget_raises (fuel : ℕ) (T : ℚ) (_hT : 0 < T) :
    callRetryCls fuel .retry [] none (some (.pyFloat T)) none
      = .error .recursionError :=
  callRetryCls_kwOnly_recursionError fuel .retry (some (.pyFloat T)) none

/-- Witness for C5 at `fuel = 6`, `T = 1`. -/
theorem retry_time_budget_raises_witness :
    callRetryCls 6 .retry [] none (some (.pyFloat 1)) none
      = .error .recursionError :=
  retry_time_budget_raises 6 1 (by norm_num)

/-- C6: constructing a retry policy with none of the three bounding options
does fail construction rather than returning a policy that retries forever:
`Retry()` raises `RecursionError` (the inherited staticmethod `__new__`
re-enters itself through `retry = InfiniteRetry()`), for every recursion
budget. -/
theorem retry_no_bounding_options_raises (fuel : ℕ) :
    callRetryCls fuel .retry [] none none none = .error .recursionError :=
  callRetryCls_kwOnly_recursionError fuel .retry none none

/-- C7: for a structurally valid token (successful decode, unpack, version and
digest-length checks), `Signature.verify` raises the expired-signature error
exactly when the verification time is strictly greater than the embedded
expiry; at or before the expiry second it is never rejected as expired. -/
theorem verify_expired_iff_now_gt_expiry (secret : Secret) (message : String)
    (signature : List ℕ) (now : ℚ) (header digest : List ℕ) (version expiry : ℕ)
    (h : verify_structural signature = .ok (header, digest, version, expiry)) :
    (Signature_verify secret message signature now
        = .error (.signatureError "The signature has expired and is no longer valid."))
      ↔ now > (expiry : ℚ) := by
  unfold Signature_verify
  rw [h]
  by_cases hc : now > (expiry : ℚ)
  · simp [hc]
  · simp [hc, hmac_new_with_hash_object]

/-- Witness for C7: a concrete structurally valid token with expiry 1000,
checked at time 2000. -/
theorem verify_expired_iff_now_gt_expiry_witness :
    (Signature_verify ⟨[107]⟩ "m"
        (urlsafe_b64encode ([1, 0, 0, 232, 3, 0, 0] ++ List.replicate 48 0)) 2000
      = .error (.signatureError "The signature has expired and is no longer valid."))
      ↔ (2000 : ℚ) > ((1000 : ℕ) : ℚ) :=
  verify_expired_iff_now_gt_expiry ⟨[107]⟩ "m" _ 2000 [1, 0, 0, 232, 3, 0, 0]
    (List.replicate 48 0) 1 1000 (by decide)

/-- C8 counterexample: cached value 7 at cached modification time 1; the stat
reports a newer time 2 and re-parsing fails.  The call succeeds (the failure
is swallowed), the cached value is kept — but the new state's cached
modification time is 2, not the unchanged 1 the claim requires: the source
assigns `self.modified_time = modified_time` outside the `try/except`. -/
theorem observed_reparse_failure_updates_mtime_cex :
    get_data_and_modified_time (fun v : ℤ => decide (v ≠ 0)) ⟨1, some 7⟩ (some 2) none
        = .ok (some 7, 2, ⟨2, some 7⟩) ∧
      ((⟨2, some 7⟩ : ObservedFileState ℤ).modified_time
        ≠ (⟨1, some 7⟩ : ObservedFileState ℤ).modified_time) :=
  ⟨by decide, by decide⟩

/-- C8 (amended): when the stat reports a newer modification time, re-parsing
fails, and a truthy cached value is present, the cached value is left
unchanged but the cached modification time is advanced to the newer stat
time — the two cache fields are not replaced together. -/
theorem observed_reparse_failure_keeps_value_updates_mtime {V : Type}
    (truthyV : V → Bool) (st : ObservedFileState V) (v : V) (mt : ℚ)
    (hd : st.data = some v) (hv : truthyV v = true) (hlt : st.modified_time < mt) :
    get_data_and_modified_time truthyV st (some mt) none
      = .ok (some v, mt, ⟨mt, some v⟩) := by
  simp [get_data_and_modified_time, hlt, hd, dataFalsy, hv]

/-- Witness for C8 (amended) at cached value 5, cached time 1, new stat
time 3. -/
theorem observed_reparse_failure_keeps_value_updates_mtime_witness :
    get_data_and_modified_time (fun v : ℤ => decide (v ≠ 0)) ⟨1, some 5⟩ (some 3) none
      = .ok (some 5, 3, ⟨3, some 5⟩) :=
  observed_reparse_failure_keeps_value_updates_mtime _ _ 5 3 rfl (by decide) (by decide)

/-- C9 counterexample: a falsy value (the integer 0, as left by a prior
successful parse whose parser returned 0) is cached at modification time 5;
the stat then fails.  The claim says the cached value is served, but the code
tests `not self.data` — Python truthiness, not `is None` — and raises
`FileNotFoundError`. -/
theorem observed_falsy_cache_raises_cex :
    get_data_and_modified_time (fun v : ℤ => decide (v ≠ 0)) ⟨5, some 0⟩ none none
      = .error .fileNotFoundError := by
  decide

/-- C9 (amended): for every *truthy* cached value set by a prior successful
parse, a call whose stat fails returns the cached value and cached
modification time unchanged instead of raising `FileNotFoundError`. -/
theorem observed_truthy_cache_served_on_stat_failure {V : Type}
    (truthyV : V → Bool) (st : ObservedFileState V) (v : V) (parseResult : Option V)
    (hd : st.data = some v) (hv : truthyV v = true) :
    get_data_and_modified_time truthyV st none parseResult
      = .ok (some v, st.modified_time, st) := by
  simp [get_data_and_modified_time, dataFalsy, hd, hv]

/-- Witness for C9 (amended) at cached value 9, cached time 4. -/
theorem observed_truthy_cache_served_on_stat_failure_witness :
    get_data_and_modified_time (fun v : ℤ => decide (v ≠ 0)) ⟨4, some 9⟩ none none
      = .ok (some 9, 4, ⟨4, some 9⟩) :=
  observed_truthy_cache_served_on_stat_failure _ _ 9 none rfl (by decide)

/-- C10: `Signature.sign` succeeds exactly when the computed expiry
`int(now + max_age.total_seconds())` lies in `[0, 2^32)`; outside that range
the `struct` packing raises `struct.error` instead of wrapping modulo
`2^32`. -/
theorem sign_ok_iff_expiry_in_u32_range (k : Secret) (m : String) (d now : ℚ) :
    ((Signature_sign k m d now).isOk ↔
      0 ≤ pyInt (now + d) ∧ pyInt (now + d) < 4294967296) ∧
    ((Signature_sign k m d now).isOk = false →
      Signature_sign k m d now = .error .structError) := by
  unfold Signature_sign Signature_sign_packed BYTE_FORMAT_pack
  by_cases h : 0 ≤ pyInt (now + d) ∧ pyInt (now + d) < 4294967296
  · have hc : VERSION < 256 ∧ 0 ≤ pyInt (now + d) ∧ pyInt (now + d) < 4294967296 :=
      ⟨by norm_num [VERSION], h⟩
    rw [if_pos hc]
    simp [h, Except.isOk, Except.toBool]
  · have hc : ¬ (VERSION < 256 ∧ 0 ≤ pyInt (now + d) ∧ pyInt (now + d) < 4294967296) :=
      fun hh => h hh.2
    rw [if_neg hc]
    simp [h, Except.isOk, Except.toBool]

/-- Witness for C10: at `now = 1000` and `max_age = -2000` seconds the
computed expiry is −1000, outside `[0, 2^32)`, and signing raises
`struct.error`. -/
theorem sign_ok_iff_expiry_in_u32_range_witness :
    Signature_sign ⟨[107]⟩ "m" (-2000) 1000 = .error .structError :=
  (sign_ok_iff_expiry_in_u32_range ⟨[107]⟩ "m" (-2000) 1000).2 (by
    have h : pyInt ((1000 : ℚ) + (-2000)) = -1000 := by norm_num [pyInt]
    simp only [Signature_sign, h]
    decide)
